import Mathlib

/-!
Entry point of godel-okgo-asset-nobadfuncs, the file `main.go`.

`main.go` holds two functions, `main` and `checkMain`.  Both only wire other
packages together, so the embedding is explicit state passing over the
process-global state.  Every function of another package is a parameter, an
arbitrary transformer of the process-global state, and the world carries a
history of the calls made, so that what a collaborator was called with, and
what `os.Args` held at that moment, can be stated.  The history is ghost state:
the call sites append to it and no function reads it.  Collaborators are taken
to return; a panic inside one is outside the model.
-/

namespace NobadfuncsAsset

/-! ## Data model -/

/-- Go types that `main.go` handles without looking inside them. -/
structure Sig : Type 1 where
  /-- process-global state other than `os.Args` -/
  State : Type
  /-- the checker factory type returned by `creator.Nobadfuncs()` -/
  Creator : Type
  /-- the type of the function value `config.UpgradeConfig` -/
  UpgradeConfigFn : Type
  /-- the root command type returned by `checker.AssetRootCmd` -/
  Command : Type
  /-- the flag set type of the second argument of `amalgomated.RunApp` -/
  FlagSet : Type
  /-- the type returned by `amalgomatedcheck.Instance()` -/
  Cmder : Type
  /-- the type returned by `amalgomated.NewCmdLibrary` -/
  CmdLibrary : Type

/-- Process-global state: the variable `os.Args` and everything else. -/
structure Globals (S : Sig) where
  Args : List String
  other : S.State

/-- One record of the call history.  `seen` is the value of `os.Args` at the
moment the call is made. -/
inductive Event (S : Sig) where
  | checkMain (osArgs : List String)
  | Nobadfuncs (seen : List String)
  | AssetRootCmd (creator : S.Creator) (upgradeConfigFn : S.UpgradeConfigFn) (short : String)
      (seen : List String)
  | ExecuteWithDefaultParams (rootCmd : S.Command) (seen : List String)
  | Instance (seen : List String)
  | NewCmdLibrary (cmders : List S.Cmder) (seen : List String)
  | RunApp (args : List String) (fset : Option S.FlagSet) (cmdLibrary : S.CmdLibrary)
      (seen : List String)
  | subTool (name : String) (args : List String) (seen : List String)

/-- The process-global state together with the history of calls so far.  The
collaborating packages act on `globals` only; the history is written by the
call sites. -/
structure World (S : Sig) where
  globals : Globals S
  trace : List (Event S)

/-- Append one record to the history. -/
def World.log {S : Sig} (w : World S) (e : Event S) : World S :=
  ⟨w.globals, w.trace ++ [e]⟩

/-- Call a function of another package: record the call with the `os.Args` it
sees, then let it act on the process-global state. -/
def World.call {S : Sig} {α : Type} (w : World S) (ev : List String → Event S)
    (f : Globals S → α × Globals S) : α × World S :=
  ((f w.globals).1, ⟨(f w.globals).2, w.trace ++ [ev w.globals.Args]⟩)

/-- The records added to the history between world `w` and a later history. -/
def World.since {S : Sig} (w : World S) (later : World S) : List (Event S) :=
  later.trace.drop w.trace.length

/-- Records of an entry into `checkMain`. -/
def Event.isCheckMain {S : Sig} : Event S → Bool
  | .checkMain _ => true
  | _ => false

/-- Records of a run of a bundled sub-tool. -/
def Event.isSubTool {S : Sig} : Event S → Bool
  | .subTool _ _ _ => true
  | _ => false

/-- Records of a call of the dispatcher. -/
def Event.isRunApp {S : Sig} : Event S → Bool
  | .RunApp _ _ _ _ => true
  | _ => false

/-! ## Collaborators of `checkMain` (imports of `main.go`, lines 21-26) -/

/-- The functions and values of other packages that `checkMain` uses. -/
structure CheckEnv (S : Sig) where
  /-- the function `creator.Nobadfuncs` -/
  Nobadfuncs : Globals S → S.Creator × Globals S
  /-- the function value `config.UpgradeConfig`, passed on and never called here -/
  UpgradeConfig : S.UpgradeConfigFn
  /-- the function `checker.AssetRootCmd` -/
  AssetRootCmd : S.Creator → S.UpgradeConfigFn → String → Globals S → S.Command × Globals S
  /-- the function `cobracli.ExecuteWithDefaultParams` -/
  ExecuteWithDefaultParams : S.Command → Globals S → Int × Globals S

/-- The assignment `os.Args = osArgs`. -/
def os.setArgs {S : Sig} (osArgs : List String) (w : World S) : World S :=
  ⟨⟨osArgs, w.globals.other⟩, w.trace⟩

/-- The call `creator.Nobadfuncs()`. -/
def creator.Nobadfuncs {S : Sig} (C : CheckEnv S) (w : World S) : S.Creator × World S :=
  w.call Event.Nobadfuncs C.Nobadfuncs

/-- The call `checker.AssetRootCmd(creator, upgradeConfigFn, short)`. -/
def checker.AssetRootCmd {S : Sig} (C : CheckEnv S) (creator : S.Creator)
    (upgradeConfigFn : S.UpgradeConfigFn) (short : String) (w : World S) : S.Command × World S :=
  w.call (Event.AssetRootCmd creator upgradeConfigFn short)
    (C.AssetRootCmd creator upgradeConfigFn short)

/-- The call `cobracli.ExecuteWithDefaultParams(rootCmd)`. -/
def cobracli.ExecuteWithDefaultParams {S : Sig} (C : CheckEnv S) (rootCmd : S.Command)
    (w : World S) : Int × World S :=
  w.call (Event.ExecuteWithDefaultParams rootCmd) (C.ExecuteWithDefaultParams rootCmd)

/-! ## `checkMain` (main.go, lines 33-37) -/

/-- Lines 34-35 of `checkMain`: the assignment to `os.Args` and the
construction of `rootCmd`.  The argument `creator.Nobadfuncs()` is evaluated
before `checker.AssetRootCmd` is called.  Entering `checkMain` is recorded in the
history first. -/
def checkMain.rootCmd {S : Sig} (C : CheckEnv S) (osArgs : List String) (w : World S) :
    S.Command × World S :=
  let w1 := os.setArgs osArgs (w.log (Event.checkMain osArgs))
  let factory := creator.Nobadfuncs C w1
  checker.AssetRootCmd C factory.1 C.UpgradeConfig "run nobadfuncs check" factory.2

/-- The function `checkMain`: lines 34-35, then line 36,
`return cobracli.ExecuteWithDefaultParams(rootCmd)`. -/
def checkMain {S : Sig} (C : CheckEnv S) (osArgs : List String) (w : World S) : Int × World S :=
  let rootCmd := checkMain.rootCmd C osArgs w
  cobracli.ExecuteWithDefaultParams C rootCmd.1 rootCmd.2

/-! ## Collaborators of `main` (imports of `main.go`, lines 18-24) -/

/-- What a dispatcher does with the process, as a strategy: it finishes with an
exit code, or asks for the fallback application to be run on an argument list
and goes on from its result, or runs a bundled sub-tool and goes on from its
result.  Each request carries the process-global state at that moment. -/
inductive Dispatch (S : Sig) where
  | done (code : Int) (g : Globals S)
  | callApp (args : List String) (g : Globals S) (k : Int → Globals S → Dispatch S)
  | runTool (name : String) (args : List String)
      (tool : List String → Globals S → Int × Globals S) (g : Globals S)
      (k : Int → Globals S → Dispatch S)

/-- Run a dispatcher strategy with `app` as the fallback application, from the
history `t`. -/
def Dispatch.run {S : Sig} (app : List String → World S → Int × World S) :
    Dispatch S → List (Event S) → Int × World S
  | .done code g, t => (code, ⟨g, t⟩)
  | .callApp args g k, t =>
      Dispatch.run app (k (app args ⟨g, t⟩).1 (app args ⟨g, t⟩).2.globals)
        (app args ⟨g, t⟩).2.trace
  | .runTool name args tool g k, t =>
      Dispatch.run app (k (tool args g).1 (tool args g).2)
        (t ++ [Event.subTool name args g.Args])

/-- The functions of other packages that `main` uses. -/
structure MainEnv (S : Sig) where
  /-- the function `amalgomatedcheck.Instance` -/
  Instance : Globals S → S.Cmder × Globals S
  /-- the variadic function `amalgomated.NewCmdLibrary` -/
  NewCmdLibrary : List S.Cmder → Globals S → S.CmdLibrary × Globals S
  /-- the function `amalgomated.RunApp`, without its last argument (the fallback
  application), which `Dispatch.run` supplies -/
  RunApp : List String → Option S.FlagSet → S.CmdLibrary → Globals S → Dispatch S

/-- The call `amalgomatedcheck.Instance()`. -/
def amalgomatedcheck.Instance {S : Sig} (M : MainEnv S) (w : World S) : S.Cmder × World S :=
  w.call Event.Instance M.Instance

/-- The call `amalgomated.NewCmdLibrary(cmders...)`. -/
def amalgomated.NewCmdLibrary {S : Sig} (M : MainEnv S) (cmders : List S.Cmder) (w : World S) :
    S.CmdLibrary × World S :=
  w.call (Event.NewCmdLibrary cmders) (M.NewCmdLibrary cmders)

/-- The call `amalgomated.RunApp(args, fset, cmdLibrary, app)`: the call is
recorded, then the strategy of the dispatcher is run with `app`. -/
def amalgomated.RunApp {S : Sig} (M : MainEnv S) (args : List String) (fset : Option S.FlagSet)
    (cmdLibrary : S.CmdLibrary) (app : List String → World S → Int × World S) (w : World S) :
    Int × World S :=
  (M.RunApp args fset cmdLibrary w.globals).run app
    (w.trace ++ [Event.RunApp args fset cmdLibrary w.globals.Args])

/-- A terminated process: the integer handed to `os.Exit` and the world it
leaves behind. -/
structure Exit (S : Sig) where
  code : Int
  world : World S

/-- The call `os.Exit(code)`. -/
def os.Exit {S : Sig} (code : Int) (w : World S) : Exit S :=
  ⟨code, w⟩

/-! ## `main` (main.go, lines 29-31) -/

/-- The third argument of the dispatcher call in `main`:
`amalgomated.NewCmdLibrary(amalgomatedcheck.Instance())`. -/
def main.cmdLibrary {S : Sig} (M : MainEnv S) (w : World S) : S.CmdLibrary × World S :=
  let cmder := amalgomatedcheck.Instance M w
  amalgomated.NewCmdLibrary M [cmder.1] cmder.2

/-- The argument of `os.Exit` in `main`:
`amalgomated.RunApp(os.Args, nil, amalgomated.NewCmdLibrary(amalgomatedcheck.Instance()), checkMain)`,
operands in lexical order. -/
def main.runApp {S : Sig} (M : MainEnv S) (C : CheckEnv S) (w : World S) : Int × World S :=
  let args := w.globals.Args
  let cmdLibrary := main.cmdLibrary M w
  amalgomated.RunApp M args none cmdLibrary.1 (checkMain C) cmdLibrary.2

/-- The same call with `os.Args` read after the command library is built.  Go
fixes the order of the function calls in an expression, not the moment a
variable operand is read; `main_runApp_order` shows the two readings agree when
building the library does not assign `os.Args`. -/
def main.runAppLate {S : Sig} (M : MainEnv S) (C : CheckEnv S) (w : World S) : Int × World S :=
  let cmdLibrary := main.cmdLibrary M w
  amalgomated.RunApp M cmdLibrary.2.globals.Args none cmdLibrary.1 (checkMain C) cmdLibrary.2

/-- The function `main`. -/
def main {S : Sig} (M : MainEnv S) (C : CheckEnv S) (w : World S) : Exit S :=
  os.Exit (main.runApp M C w).1 (main.runApp M C w).2

/-! ## The dispatcher as the specification describes it -/

/-- A registry: sub-tool names with their runnable entry points. -/
abbrev Registry (S : Sig) := List (String × (List String → Globals S → Int × Globals S))

/-- Modelled from the spec: the dispatcher `amalgomated.RunApp`, whose code is
not among the source files.  Section 4.1: the dispatcher "inspects
argv[0]/arguments" and, if they "match a registered sub-tool name", runs that
sub-tool and returns its status; "otherwise falls through to Mode B".  The
matching convention is not given, so it is the parameter `argsMatch`; `entries`
reads the registry out of a command library.  The argument list is handed on as
it was received. -/
def specRunApp {S : Sig} (argsMatch : List String → String → Bool)
    (entries : S.CmdLibrary → Registry S) :
    List String → Option S.FlagSet → S.CmdLibrary → Globals S → Dispatch S :=
  fun args _ cmdLibrary g =>
    match (entries cmdLibrary).find? (fun e => argsMatch args e.1) with
    | some e => Dispatch.runTool e.1 args e.2 g (fun code g1 => Dispatch.done code g1)
    | none => Dispatch.callApp args g (fun code g1 => Dispatch.done code g1)

/-- The collaborators of `main` with the dispatcher of the specification. -/
def specMainEnv {S : Sig} (Instance : Globals S → S.Cmder × Globals S)
    (NewCmdLibrary : List S.Cmder → Globals S → S.CmdLibrary × Globals S)
    (argsMatch : List String → String → Bool) (entries : S.CmdLibrary → Registry S) :
    MainEnv S :=
  ⟨Instance, NewCmdLibrary, specRunApp argsMatch entries⟩

/-! ## Observers of the history -/

/-- How often a dispatcher strategy asks for the fallback application when it is
run with `app` from the history `t`. -/
def Dispatch.appCalls {S : Sig} (app : List String → World S → Int × World S) :
    Dispatch S → List (Event S) → Nat
  | .done _ _, _ => 0
  | .callApp args g k, t =>
      Dispatch.appCalls app (k (app args ⟨g, t⟩).1 (app args ⟨g, t⟩).2.globals)
        (app args ⟨g, t⟩).2.trace + 1
  | .runTool name args tool g k, t =>
      Dispatch.appCalls app (k (tool args g).1 (tool args g).2)
        (t ++ [Event.subTool name args g.Args])

/-- The records one run of `checkMain` writes, spelled out. -/
def checkMain.events {S : Sig} (C : CheckEnv S) (osArgs : List String) (w : World S) :
    List (Event S) :=
  [Event.checkMain osArgs,
   Event.Nobadfuncs osArgs,
   Event.AssetRootCmd (C.Nobadfuncs ⟨osArgs, w.globals.other⟩).1 C.UpgradeConfig
     "run nobadfuncs check" (C.Nobadfuncs ⟨osArgs, w.globals.other⟩).2.Args,
   Event.ExecuteWithDefaultParams (checkMain.rootCmd C osArgs w).1
     (checkMain.rootCmd C osArgs w).2.globals.Args]

/-! ## A concrete instance, used to evaluate the definitions -/

/-- Strings stand for the values of the collaborating packages, a counter for
the rest of the process-global state. -/
abbrev demoSig : Sig := ⟨Nat, String, String, String, Unit, String, List String⟩

/-- Collaborators of `checkMain` that leave `os.Args` alone; the executor counts
its runs and returns the number of arguments it sees. -/
def demoCheckEnv : CheckEnv demoSig where
  Nobadfuncs := fun g => ("nobadfuncs", g)
  UpgradeConfig := "UpgradeConfig"
  AssetRootCmd := fun creator _ short g => (creator ++ ": " ++ short, g)
  ExecuteWithDefaultParams := fun _ g => (Int.ofNat g.Args.length, ⟨g.Args, g.other + 1⟩)

/-- Collaborators of `checkMain` that write no process-global state. -/
def quietCheckEnv : CheckEnv demoSig where
  Nobadfuncs := fun g => ("nobadfuncs", g)
  UpgradeConfig := "UpgradeConfig"
  AssetRootCmd := fun creator _ short g => (creator ++ ": " ++ short, g)
  ExecuteWithDefaultParams := fun _ g => (0, g)

/-- A bundled sub-tool, which exits with code 7. -/
def demoTool : List String → Globals demoSig → Int × Globals demoSig :=
  fun _ g => (7, g)

/-- A command library is the list of its sub-tool names; each name runs
`demoTool`. -/
def demoEntries : List String → Registry demoSig :=
  fun names => names.map (fun n => (n, demoTool))

/-- Arguments select a sub-tool when the second argument is its name behind
two underscores. -/
def demoArgsMatch : List String → String → Bool :=
  fun args name => args.tail.head? == some ("__" ++ name)

/-- The generated package supplies the one sub-tool named nobadfuncs. -/
def demoInstance : Globals demoSig → String × Globals demoSig :=
  fun g => ("nobadfuncs", g)

/-- The library of a list of sub-tool names is that list. -/
def demoNewCmdLibrary : List String → Globals demoSig → List String × Globals demoSig :=
  fun cmders g => (cmders, g)

/-- Collaborators of `main` with the dispatcher of the specification. -/
def demoMainEnv : MainEnv demoSig :=
  specMainEnv demoInstance demoNewCmdLibrary demoArgsMatch demoEntries

/-- A world at process start. -/
def demoWorld (args : List String) : World demoSig :=
  ⟨⟨args, 0⟩, []⟩

/-! ## Shared lemmas -/

theorem World.since_append {S : Sig} (w : World S) (g : Globals S) (l : List (Event S)) :
    w.since ⟨g, w.trace ++ l⟩ = l := by
  simp [World.since]

/-- The history written by one run of `checkMain`. -/
theorem checkMain_trace {S : Sig} (C : CheckEnv S) (osArgs : List String) (w : World S) :
    (checkMain C osArgs w).2.trace = w.trace ++ checkMain.events C osArgs w := by
  simp [checkMain, checkMain.events, checkMain.rootCmd, cobracli.ExecuteWithDefaultParams,
    checker.AssetRootCmd, creator.Nobadfuncs, os.setArgs, World.call, World.log]

/-- Running a dispatcher strategy with `checkMain` as the fallback application
only extends the history; the extension holds no record of a dispatcher call
and one `checkMain` record for each request of the strategy. -/
theorem Dispatch.run_checkMain_trace {S : Sig} (C : CheckEnv S) (d : Dispatch S)
    (t : List (Event S)) :
    ∃ l, (d.run (checkMain C) t).2.trace = t ++ l ∧ l.filter Event.isRunApp = [] ∧
      l.countP Event.isCheckMain = d.appCalls (checkMain C) t := by
  induction d generalizing t with
  | done code g => exact ⟨[], by simp [Dispatch.run, Dispatch.appCalls]⟩
  | callApp args g k ih =>
    obtain ⟨l, h1, h2, h3⟩ := ih (checkMain C args ⟨g, t⟩).1 (checkMain C args ⟨g, t⟩).2.globals
      (checkMain C args ⟨g, t⟩).2.trace
    refine ⟨checkMain.events C args ⟨g, t⟩ ++ l, ?_, ?_, ?_⟩
    · rw [Dispatch.run, h1, checkMain_trace, List.append_assoc]
    · simp [h2, Event.isRunApp, checkMain.events]
    · rw [Dispatch.appCalls, ← h3]
      simp [Event.isCheckMain, List.countP_cons, Nat.add_comm, checkMain.events]
  | runTool name args tool g k ih =>
    obtain ⟨l, h1, h2, h3⟩ := ih (tool args g).1 (tool args g).2
      (t ++ [Event.subTool name args g.Args])
    refine ⟨Event.subTool name args g.Args :: l, ?_, ?_, ?_⟩
    · rw [Dispatch.run, h1, List.append_assoc]; rfl
    · simp [h2, Event.isRunApp]
    · rw [Dispatch.appCalls, ← h3]
      simp [Event.isCheckMain, List.countP_cons]

theorem World.since_of_trace {S : Sig} (w later : World S) (l : List (Event S))
    (h : later.trace = w.trace ++ l) : w.since later = l := by
  simp [World.since, h]

/-- The history after `main` has built the command library. -/
theorem main_cmdLibrary_trace {S : Sig} (M : MainEnv S) (w : World S) :
    (main.cmdLibrary M w).2.trace =
      w.trace ++ [Event.Instance w.globals.Args,
        Event.NewCmdLibrary [(M.Instance w.globals).1] (M.Instance w.globals).2.Args] := by
  simp [main.cmdLibrary, amalgomated.NewCmdLibrary, amalgomatedcheck.Instance, World.call]

/-- The world in which the dispatcher of `main` starts: the command library is
built and the dispatcher call is recorded. -/
theorem main_runApp_eq {S : Sig} (M : MainEnv S) (C : CheckEnv S) (w : World S) :
    main.runApp M C w =
      (M.RunApp w.globals.Args none (main.cmdLibrary M w).1
          (main.cmdLibrary M w).2.globals).run (checkMain C)
        (w.trace ++ [Event.Instance w.globals.Args,
          Event.NewCmdLibrary [(M.Instance w.globals).1] (M.Instance w.globals).2.Args,
          Event.RunApp w.globals.Args none (main.cmdLibrary M w).1
            (main.cmdLibrary M w).2.globals.Args]) := by
  simp [main.runApp, amalgomated.RunApp, main_cmdLibrary_trace]

/-- With the dispatcher of the specification, a matching registry entry sends
`main` to that sub-tool. -/
theorem spec_main_subTool {S : Sig} (M : MainEnv S) (C : CheckEnv S) (w : World S)
    (argsMatch : List String → String → Bool) (entries : S.CmdLibrary → Registry S)
    (hM : M.RunApp = specRunApp argsMatch entries)
    (e : String × (List String → Globals S → Int × Globals S))
    (h : (entries (main.cmdLibrary M w).1).find? (fun e => argsMatch w.globals.Args e.1) =
      some e) :
    main.runApp M C w =
      ((e.2 w.globals.Args (main.cmdLibrary M w).2.globals).1,
        ⟨(e.2 w.globals.Args (main.cmdLibrary M w).2.globals).2,
          w.trace ++ [Event.Instance w.globals.Args,
            Event.NewCmdLibrary [(M.Instance w.globals).1] (M.Instance w.globals).2.Args,
            Event.RunApp w.globals.Args none (main.cmdLibrary M w).1
              (main.cmdLibrary M w).2.globals.Args,
            Event.subTool e.1 w.globals.Args (main.cmdLibrary M w).2.globals.Args]⟩) := by
  rw [main_runApp_eq, hM, specRunApp]
  simp only [h]
  simp [Dispatch.run]

/-- With the dispatcher of the specification, an argument list that matches no
registry entry sends `main` to `checkMain`. -/
theorem spec_main_checkMain {S : Sig} (M : MainEnv S) (C : CheckEnv S) (w : World S)
    (argsMatch : List String → String → Bool) (entries : S.CmdLibrary → Registry S)
    (hM : M.RunApp = specRunApp argsMatch entries)
    (h : (entries (main.cmdLibrary M w).1).find? (fun e => argsMatch w.globals.Args e.1) =
      none) :
    main.runApp M C w =
      checkMain C w.globals.Args
        ⟨(main.cmdLibrary M w).2.globals,
          w.trace ++ [Event.Instance w.globals.Args,
            Event.NewCmdLibrary [(M.Instance w.globals).1] (M.Instance w.globals).2.Args,
            Event.RunApp w.globals.Args none (main.cmdLibrary M w).1
              (main.cmdLibrary M w).2.globals.Args]⟩ := by
  rw [main_runApp_eq, hM, specRunApp]
  simp only [h]
  simp [Dispatch.run]

/-- The records added since `w` by a run of `checkMain` that starts after the
records `pre`. -/
theorem World.since_checkMain {S : Sig} (C : CheckEnv S) (osArgs : List String) (w : World S)
    (g : Globals S) (pre : List (Event S)) :
    w.since (checkMain C osArgs ⟨g, w.trace ++ pre⟩).2 =
      pre ++ checkMain.events C osArgs ⟨g, w.trace ++ pre⟩ := by
  apply World.since_of_trace
  rw [checkMain_trace, List.append_assoc]

/-- When building the command library does not assign `os.Args`, it makes no
difference whether `main` reads `os.Args` before or after building it. -/
theorem main_runApp_order {S : Sig} (M : MainEnv S) (C : CheckEnv S) (w : World S)
    (hI : ∀ g, (M.Instance g).2.Args = g.Args)
    (hL : ∀ cmders g, (M.NewCmdLibrary cmders g).2.Args = g.Args) :
    main.runAppLate M C w = main.runApp M C w := by
  have h : (main.cmdLibrary M w).2.globals.Args = w.globals.Args := by
    simp [main.cmdLibrary, amalgomated.NewCmdLibrary, amalgomatedcheck.Instance, World.call,
      hI, hL]
  simp [main.runAppLate, main.runApp, h]


/-! ## Exit codes -/

/-- C1: exit codes are passed through unchanged.  The integer `checkMain`
returns is the integer `cobracli.ExecuteWithDefaultParams` returns for the root
command, and the integer `main` hands to `os.Exit` is the integer
`amalgomated.RunApp` returns, for every argument list, every prior world and
every behaviour of the collaborators. -/
theorem exit_code_pass_through {S : Sig} (M : MainEnv S) (C : CheckEnv S)
    (osArgs : List String) (w : World S) :
    (checkMain C osArgs w).1 =
        (C.ExecuteWithDefaultParams (checkMain.rootCmd C osArgs w).1
          (checkMain.rootCmd C osArgs w).2.globals).1 ∧
      (main M C w).code =
        (amalgomated.RunApp M w.globals.Args none (main.cmdLibrary M w).1 (checkMain C)
          (main.cmdLibrary M w).2).1 :=
  ⟨rfl, rfl⟩

/-! ## Check mode -/

/-- C2: when neither `creator.Nobadfuncs` nor `checker.AssetRootCmd` assigns
`os.Args`, the global argument list equals `osArgs` both when `checkMain` calls
the root command constructor and when it calls the command executor: the world
in which the executor runs has `os.Args = osArgs`, and the records of the two
calls show `osArgs` as the argument list seen. -/
theorem checkMain_os_args_at_calls {S : Sig} (C : CheckEnv S) (osArgs : List String)
    (w : World S)
    (hN : ∀ g, (C.Nobadfuncs g).2.Args = g.Args)
    (hA : ∀ creator fn short g, (C.AssetRootCmd creator fn short g).2.Args = g.Args) :
    (checkMain.rootCmd C osArgs w).2.globals.Args = osArgs ∧
      w.since (checkMain C osArgs w).2 =
        [Event.checkMain osArgs,
         Event.Nobadfuncs osArgs,
         Event.AssetRootCmd (C.Nobadfuncs ⟨osArgs, w.globals.other⟩).1 C.UpgradeConfig
           "run nobadfuncs check" osArgs,
         Event.ExecuteWithDefaultParams (checkMain.rootCmd C osArgs w).1 osArgs] := by
  have h1 : (checkMain.rootCmd C osArgs w).2.globals.Args = osArgs := by
    simp [checkMain.rootCmd, checker.AssetRootCmd, creator.Nobadfuncs, os.setArgs, World.call,
      World.log, hN, hA]
  refine ⟨h1, ?_⟩
  have h2 : (checkMain C osArgs w).2 =
      ⟨(checkMain C osArgs w).2.globals, w.trace ++ checkMain.events C osArgs w⟩ := by
    rw [← checkMain_trace]
  rw [h2, World.since_append, checkMain.events, h1, hN]

/-- C7, as the code has it: `checkMain` overwrites `os.Args` with `osArgs` and
does not restore it.  When the collaborators it calls write no process-global
state, the state after the call is the prior state with `os.Args` replaced by
`osArgs`; so it equals the prior state exactly when `os.Args` was `osArgs`
already. -/
theorem checkMain_globals_after {S : Sig} (C : CheckEnv S) (osArgs : List String) (w : World S)
    (hN : ∀ g, (C.Nobadfuncs g).2 = g)
    (hA : ∀ creator fn short g, (C.AssetRootCmd creator fn short g).2 = g)
    (hE : ∀ rootCmd g, (C.ExecuteWithDefaultParams rootCmd g).2 = g) :
    (checkMain C osArgs w).2.globals = ⟨osArgs, w.globals.other⟩ ∧
      ((checkMain C osArgs w).2.globals = w.globals ↔ w.globals.Args = osArgs) := by
  have h : (checkMain C osArgs w).2.globals = ⟨osArgs, w.globals.other⟩ := by
    simp [checkMain, checkMain.rootCmd, cobracli.ExecuteWithDefaultParams, checker.AssetRootCmd,
      creator.Nobadfuncs, os.setArgs, World.call, World.log, hN, hA, hE]
  refine ⟨h, ?_⟩
  rw [h]
  constructor
  · intro h1
    exact (congrArg Globals.Args h1).symm
  · intro h1
    cases w with
    | mk g t =>
      cases g with
      | mk a o => simp at h1; simp [h1]

/-- C8: the prior value of `os.Args` does not reach check mode.  From two
worlds that differ only in `os.Args`, `checkMain` builds the same root command
in the same world (same `os.Args` at execution, same record of the constructor
call) and gives the same result: same returned integer, same final world. -/
theorem checkMain_ignores_prior_args {S : Sig} (C : CheckEnv S) (osArgs a1 a2 : List String)
    (other : S.State) (t : List (Event S)) :
    checkMain.rootCmd C osArgs ⟨⟨a1, other⟩, t⟩ = checkMain.rootCmd C osArgs ⟨⟨a2, other⟩, t⟩ ∧
      checkMain C osArgs ⟨⟨a1, other⟩, t⟩ = checkMain C osArgs ⟨⟨a2, other⟩, t⟩ :=
  ⟨rfl, rfl⟩


/-! ## The dispatcher call in `main` -/

/-- C9: `main` calls the dispatcher exactly once, with `os.Args` as it found
it, a nil flag set, the command library that `amalgomated.NewCmdLibrary` returns
for the one value `amalgomatedcheck.Instance()` returns, and `checkMain` as the
fallback application.  The world and the code `main` exits with are those that
one run of the dispatcher on these arguments leaves, in the state the two
library calls left; the history `main` adds starts with the records of
`Instance()`, of `NewCmdLibrary` on that one value and of the dispatcher call;
it holds exactly one dispatcher record; and it holds as many `checkMain`
records as the dispatcher made callback requests, so `main` itself never calls
`checkMain`. -/
theorem main_calls_dispatcher_once {S : Sig} (M : MainEnv S) (C : CheckEnv S) (w : World S) :
    (main M C w).world =
        ((M.RunApp w.globals.Args none
            (M.NewCmdLibrary [(M.Instance w.globals).1] (M.Instance w.globals).2).1
            (M.NewCmdLibrary [(M.Instance w.globals).1] (M.Instance w.globals).2).2).run
          (checkMain C)
          (w.trace ++
            [Event.Instance w.globals.Args,
             Event.NewCmdLibrary [(M.Instance w.globals).1] (M.Instance w.globals).2.Args,
             Event.RunApp w.globals.Args none
               (M.NewCmdLibrary [(M.Instance w.globals).1] (M.Instance w.globals).2).1
               (M.NewCmdLibrary [(M.Instance w.globals).1]
                 (M.Instance w.globals).2).2.Args])).2 ∧
      (main M C w).code =
        ((M.RunApp w.globals.Args none
            (M.NewCmdLibrary [(M.Instance w.globals).1] (M.Instance w.globals).2).1
            (M.NewCmdLibrary [(M.Instance w.globals).1] (M.Instance w.globals).2).2).run
          (checkMain C)
          (w.trace ++
            [Event.Instance w.globals.Args,
             Event.NewCmdLibrary [(M.Instance w.globals).1] (M.Instance w.globals).2.Args,
             Event.RunApp w.globals.Args none
               (M.NewCmdLibrary [(M.Instance w.globals).1] (M.Instance w.globals).2).1
               (M.NewCmdLibrary [(M.Instance w.globals).1]
                 (M.Instance w.globals).2).2.Args])).1 ∧
      (w.since (main M C w).world).take 3 =
        [Event.Instance w.globals.Args,
         Event.NewCmdLibrary [(M.Instance w.globals).1] (M.Instance w.globals).2.Args,
         Event.RunApp w.globals.Args none
           (M.NewCmdLibrary [(M.Instance w.globals).1] (M.Instance w.globals).2).1
           (M.NewCmdLibrary [(M.Instance w.globals).1] (M.Instance w.globals).2).2.Args] ∧
      (w.since (main M C w).world).filter Event.isRunApp =
        [Event.RunApp w.globals.Args none
          (M.NewCmdLibrary [(M.Instance w.globals).1] (M.Instance w.globals).2).1
          (M.NewCmdLibrary [(M.Instance w.globals).1] (M.Instance w.globals).2).2.Args] ∧
      (w.since (main M C w).world).countP Event.isCheckMain =
        (M.RunApp w.globals.Args none
            (M.NewCmdLibrary [(M.Instance w.globals).1] (M.Instance w.globals).2).1
            (M.NewCmdLibrary [(M.Instance w.globals).1] (M.Instance w.globals).2).2).appCalls
          (checkMain C)
          (w.trace ++
            [Event.Instance w.globals.Args,
             Event.NewCmdLibrary [(M.Instance w.globals).1] (M.Instance w.globals).2.Args,
             Event.RunApp w.globals.Args none
               (M.NewCmdLibrary [(M.Instance w.globals).1] (M.Instance w.globals).2).1
               (M.NewCmdLibrary [(M.Instance w.globals).1]
                 (M.Instance w.globals).2).2.Args]) := by
  obtain ⟨l, h1, h2, h3⟩ := Dispatch.run_checkMain_trace C
    (M.RunApp w.globals.Args none
      (M.NewCmdLibrary [(M.Instance w.globals).1] (M.Instance w.globals).2).1
      (M.NewCmdLibrary [(M.Instance w.globals).1] (M.Instance w.globals).2).2)
    (w.trace ++
      [Event.Instance w.globals.Args,
       Event.NewCmdLibrary [(M.Instance w.globals).1] (M.Instance w.globals).2.Args,
       Event.RunApp w.globals.Args none
         (M.NewCmdLibrary [(M.Instance w.globals).1] (M.Instance w.globals).2).1
         (M.NewCmdLibrary [(M.Instance w.globals).1] (M.Instance w.globals).2).2.Args])
  have hr : main.runApp M C w =
      (M.RunApp w.globals.Args none
          (M.NewCmdLibrary [(M.Instance w.globals).1] (M.Instance w.globals).2).1
          (M.NewCmdLibrary [(M.Instance w.globals).1] (M.Instance w.globals).2).2).run
        (checkMain C)
        (w.trace ++
          [Event.Instance w.globals.Args,
           Event.NewCmdLibrary [(M.Instance w.globals).1] (M.Instance w.globals).2.Args,
           Event.RunApp w.globals.Args none
             (M.NewCmdLibrary [(M.Instance w.globals).1] (M.Instance w.globals).2).1
             (M.NewCmdLibrary [(M.Instance w.globals).1]
               (M.Instance w.globals).2).2.Args]) := by
    simp [main.runApp, main.cmdLibrary, amalgomated.RunApp, amalgomated.NewCmdLibrary,
      amalgomatedcheck.Instance, World.call]
  have hw : (main M C w).world = (main.runApp M C w).2 := rfl
  have hc : (main M C w).code = (main.runApp M C w).1 := rfl
  have hs : w.since (main M C w).world =
      [Event.Instance w.globals.Args,
        Event.NewCmdLibrary [(M.Instance w.globals).1] (M.Instance w.globals).2.Args,
        Event.RunApp w.globals.Args none
          (M.NewCmdLibrary [(M.Instance w.globals).1] (M.Instance w.globals).2).1
          (M.NewCmdLibrary [(M.Instance w.globals).1] (M.Instance w.globals).2).2.Args] ++
        l := by
    apply World.since_of_trace
    rw [hw, hr, h1, List.append_assoc]
  refine ⟨by rw [hw, hr], by rw [hc, hr], ?_, ?_, ?_⟩
  · rw [hs]
    simp
  · rw [hs]
    simp [h2, Event.isRunApp]
  · rw [hs, ← h3]
    simp [Event.isCheckMain, List.countP_cons]

/-! ## The two modes, with the dispatcher of the specification -/

/-- C4: with the dispatcher as the specification describes it, every run of
`main` runs exactly one of the two modes: either one bundled sub-tool runs and
`checkMain` is not called, or `checkMain` is called once and no bundled sub-tool
runs. -/
theorem exactly_one_mode {S : Sig} (Instance : Globals S → S.Cmder × Globals S)
    (NewCmdLibrary : List S.Cmder → Globals S → S.CmdLibrary × Globals S)
    (argsMatch : List String → String → Bool) (entries : S.CmdLibrary → Registry S)
    (C : CheckEnv S) (w : World S) :
    ((w.since (main (specMainEnv Instance NewCmdLibrary argsMatch entries) C w).world).countP
          Event.isSubTool = 1 ∧
        (w.since (main (specMainEnv Instance NewCmdLibrary argsMatch entries) C w).world).countP
          Event.isCheckMain = 0) ∨
      ((w.since (main (specMainEnv Instance NewCmdLibrary argsMatch entries) C w).world).countP
          Event.isCheckMain = 1 ∧
        (w.since (main (specMainEnv Instance NewCmdLibrary argsMatch entries) C w).world).countP
          Event.isSubTool = 0) := by
  have hw : (main (specMainEnv Instance NewCmdLibrary argsMatch entries) C w).world =
      (main.runApp (specMainEnv Instance NewCmdLibrary argsMatch entries) C w).2 := rfl
  cases h : (entries (main.cmdLibrary (specMainEnv Instance NewCmdLibrary argsMatch entries)
      w).1).find? (fun e => argsMatch w.globals.Args e.1) with
  | some e =>
    left
    rw [hw, spec_main_subTool _ C w argsMatch entries rfl e h, World.since_append]
    simp [Event.isSubTool, Event.isCheckMain, List.countP_cons]
  | none =>
    right
    rw [hw, spec_main_checkMain _ C w argsMatch entries rfl h,
      World.since_checkMain]
    simp [Event.isSubTool, Event.isCheckMain, List.countP_cons, checkMain.events,
      List.countP_append]

/-- C5: with the dispatcher as the specification describes it, when the process
argument list matches the registered sub-tool `e`, `main` runs that sub-tool
(once, and no other), hands its exit code to `os.Exit`, and does not call
`checkMain`. -/
theorem subTool_route {S : Sig} (Instance : Globals S → S.Cmder × Globals S)
    (NewCmdLibrary : List S.Cmder → Globals S → S.CmdLibrary × Globals S)
    (argsMatch : List String → String → Bool) (entries : S.CmdLibrary → Registry S)
    (C : CheckEnv S) (w : World S)
    (e : String × (List String → Globals S → Int × Globals S))
    (h : (entries (main.cmdLibrary (specMainEnv Instance NewCmdLibrary argsMatch entries)
        w).1).find? (fun e => argsMatch w.globals.Args e.1) = some e) :
    (main (specMainEnv Instance NewCmdLibrary argsMatch entries) C w).code =
        (e.2 w.globals.Args
          (main.cmdLibrary (specMainEnv Instance NewCmdLibrary argsMatch entries)
            w).2.globals).1 ∧
      (w.since (main (specMainEnv Instance NewCmdLibrary argsMatch entries) C w).world).filter
          Event.isSubTool =
        [Event.subTool e.1 w.globals.Args
          (main.cmdLibrary (specMainEnv Instance NewCmdLibrary argsMatch entries)
            w).2.globals.Args] ∧
      (w.since (main (specMainEnv Instance NewCmdLibrary argsMatch entries) C w).world).countP
          Event.isCheckMain = 0 := by
  have hr := spec_main_subTool (specMainEnv Instance NewCmdLibrary argsMatch entries) C w
    argsMatch entries rfl e h
  have hc : (main (specMainEnv Instance NewCmdLibrary argsMatch entries) C w).code =
      (main.runApp (specMainEnv Instance NewCmdLibrary argsMatch entries) C w).1 := rfl
  have hw : (main (specMainEnv Instance NewCmdLibrary argsMatch entries) C w).world =
      (main.runApp (specMainEnv Instance NewCmdLibrary argsMatch entries) C w).2 := rfl
  refine ⟨by rw [hc, hr], ?_, ?_⟩
  · rw [hw, hr, World.since_append]
    simp [Event.isSubTool]
  · rw [hw, hr, World.since_append]
    simp [Event.isCheckMain, List.countP_cons]

/-- C6: with the dispatcher as the specification describes it, when the process
argument list matches no registered sub-tool name, `main` calls `checkMain`
(once, on the process argument list), hands the integer it returns to `os.Exit`,
and runs no bundled sub-tool. -/
theorem checkMain_route {S : Sig} (Instance : Globals S → S.Cmder × Globals S)
    (NewCmdLibrary : List S.Cmder → Globals S → S.CmdLibrary × Globals S)
    (argsMatch : List String → String → Bool) (entries : S.CmdLibrary → Registry S)
    (C : CheckEnv S) (w : World S)
    (h : ∀ e ∈ entries (main.cmdLibrary (specMainEnv Instance NewCmdLibrary argsMatch entries)
        w).1, argsMatch w.globals.Args e.1 = false) :
    (main (specMainEnv Instance NewCmdLibrary argsMatch entries) C w).code =
        (checkMain C w.globals.Args
          ⟨(main.cmdLibrary (specMainEnv Instance NewCmdLibrary argsMatch entries) w).2.globals,
            (main.cmdLibrary (specMainEnv Instance NewCmdLibrary argsMatch entries) w).2.trace ++
              [Event.RunApp w.globals.Args none
                (main.cmdLibrary (specMainEnv Instance NewCmdLibrary argsMatch entries) w).1
                (main.cmdLibrary (specMainEnv Instance NewCmdLibrary argsMatch entries)
                  w).2.globals.Args]⟩).1 ∧
      (w.since (main (specMainEnv Instance NewCmdLibrary argsMatch entries) C w).world).filter
          Event.isCheckMain = [Event.checkMain w.globals.Args] ∧
      (w.since (main (specMainEnv Instance NewCmdLibrary argsMatch entries) C w).world).countP
          Event.isSubTool = 0 := by
  have hf : (entries (main.cmdLibrary (specMainEnv Instance NewCmdLibrary argsMatch entries)
      w).1).find? (fun e => argsMatch w.globals.Args e.1) = none := by
    rw [List.find?_eq_none]
    intro e he
    simp [h e he]
  have hr := spec_main_checkMain (specMainEnv Instance NewCmdLibrary argsMatch entries) C w
    argsMatch entries rfl hf
  have hc : (main (specMainEnv Instance NewCmdLibrary argsMatch entries) C w).code =
      (main.runApp (specMainEnv Instance NewCmdLibrary argsMatch entries) C w).1 := rfl
  have hw : (main (specMainEnv Instance NewCmdLibrary argsMatch entries) C w).world =
      (main.runApp (specMainEnv Instance NewCmdLibrary argsMatch entries) C w).2 := rfl
  refine ⟨?_, ?_, ?_⟩
  · rw [hc, hr, main_cmdLibrary_trace]
    simp
  · rw [hw, hr, World.since_checkMain]
    simp [Event.isCheckMain, checkMain.events, List.filter_cons]
  · rw [hw, hr, World.since_checkMain]
    simp [Event.isSubTool, checkMain.events, List.countP_cons, List.countP_append]


/-! ## The theorems at concrete inputs -/

/-- C2 at a concrete input: the process started as `godel check`, `checkMain`
is called with `nobadfuncs --help`. -/
theorem checkMain_os_args_at_calls_witness :
    (checkMain.rootCmd demoCheckEnv ["nobadfuncs", "--help"]
        (demoWorld ["godel", "check"])).2.globals.Args = ["nobadfuncs", "--help"] ∧
      (demoWorld ["godel", "check"]).since
          (checkMain demoCheckEnv ["nobadfuncs", "--help"] (demoWorld ["godel", "check"])).2 =
        [Event.checkMain ["nobadfuncs", "--help"],
         Event.Nobadfuncs ["nobadfuncs", "--help"],
         Event.AssetRootCmd "nobadfuncs" "UpgradeConfig" "run nobadfuncs check"
           ["nobadfuncs", "--help"],
         Event.ExecuteWithDefaultParams "nobadfuncs: run nobadfuncs check"
           ["nobadfuncs", "--help"]] :=
  checkMain_os_args_at_calls demoCheckEnv ["nobadfuncs", "--help"] (demoWorld ["godel", "check"])
    (fun _ => rfl) (fun _ _ _ _ => rfl)

/-- C5 at a concrete input: the second argument names the bundled sub-tool. -/
theorem subTool_route_witness :
    (main demoMainEnv demoCheckEnv (demoWorld ["godel", "__nobadfuncs", "./..."])).code = 7 ∧
      ((demoWorld ["godel", "__nobadfuncs", "./..."]).since
          (main demoMainEnv demoCheckEnv
            (demoWorld ["godel", "__nobadfuncs", "./..."])).world).filter Event.isSubTool =
        [Event.subTool "nobadfuncs" ["godel", "__nobadfuncs", "./..."]
          ["godel", "__nobadfuncs", "./..."]] ∧
      ((demoWorld ["godel", "__nobadfuncs", "./..."]).since
          (main demoMainEnv demoCheckEnv
            (demoWorld ["godel", "__nobadfuncs", "./..."])).world).countP
        Event.isCheckMain = 0 :=
  subTool_route demoInstance demoNewCmdLibrary demoArgsMatch demoEntries demoCheckEnv
    (demoWorld ["godel", "__nobadfuncs", "./..."]) ("nobadfuncs", demoTool) (by rfl)

/-- C6 at a concrete input: no argument names a bundled sub-tool; the executor
of `demoCheckEnv` returns the number of arguments, 3. -/
theorem checkMain_route_witness :
    (main demoMainEnv demoCheckEnv (demoWorld ["godel", "check", "./..."])).code = 3 ∧
      ((demoWorld ["godel", "check", "./..."]).since
          (main demoMainEnv demoCheckEnv
            (demoWorld ["godel", "check", "./..."])).world).filter Event.isCheckMain =
        [Event.checkMain ["godel", "check", "./..."]] ∧
      ((demoWorld ["godel", "check", "./..."]).since
          (main demoMainEnv demoCheckEnv
            (demoWorld ["godel", "check", "./..."])).world).countP Event.isSubTool = 0 :=
  checkMain_route demoInstance demoNewCmdLibrary demoArgsMatch demoEntries demoCheckEnv
    (demoWorld ["godel", "check", "./..."])
    (by
      intro e he
      have h1 : e = ("nobadfuncs", demoTool) := List.mem_singleton.mp he
      rw [h1]
      rfl)

/-- C7 as stated fails: with collaborators that write no process-global state,
`checkMain` called with `nobadfuncs --help` in a process started as
`godel check` leaves `os.Args = ["nobadfuncs", "--help"]`, not the prior
value. -/
theorem checkMain_overwrites_os_args :
    (checkMain quietCheckEnv ["nobadfuncs", "--help"]
        (demoWorld ["godel", "check"])).2.globals.Args = ["nobadfuncs", "--help"] ∧
      (checkMain quietCheckEnv ["nobadfuncs", "--help"]
        (demoWorld ["godel", "check"])).2.globals ≠ (demoWorld ["godel", "check"]).globals :=
  ⟨rfl, fun h => absurd (congrArg Globals.Args h) (by decide)⟩

/-- C7 as amended, at a concrete input. -/
theorem checkMain_globals_after_witness :
    (checkMain quietCheckEnv ["nobadfuncs", "--help"] (demoWorld ["godel", "check"])).2.globals =
        ⟨["nobadfuncs", "--help"], 0⟩ ∧
      ((checkMain quietCheckEnv ["nobadfuncs", "--help"]
          (demoWorld ["godel", "check"])).2.globals = (demoWorld ["godel", "check"]).globals ↔
        (demoWorld ["godel", "check"]).globals.Args = ["nobadfuncs", "--help"]) :=
  checkMain_globals_after quietCheckEnv ["nobadfuncs", "--help"] (demoWorld ["godel", "check"])
    (fun _ => rfl) (fun _ _ _ _ => rfl) (fun _ _ => rfl)

end NobadfuncsAsset
